import Mathlib

/-!
Shallow embedding of the request-handling core of pygeoapi
(src/pygeoapi/api.py): format negotiation, feature-query validation,
pagination/link assembly, JSON-LD transformation, and the error paths of
the items, item, root and execute-process endpoints.

Python dicts are embedded as association lists (keys unique in practice),
machine exceptions as an explicit error type threaded through Except, and
timestamps (parsed by the external dateutil library) as integers under an
order-preserving abstraction.  The module-level FORMATS list is threaded
through the endpoints as explicit state, since the source mutates it.
-/

deriving instance DecidableEq for Except

namespace PyGeoApi

/-- Association-list view of a Python dict of strings. -/
abbrev Args := List (String × String)

/-- Python d.get(k): first binding of the key, if any. -/
def dget (d : Args) (k : String) : Option String :=
  (d.find? (fun kv => kv.1 == k)).map Prod.snd

/-- Python exceptions that can escape or be caught in api.py. -/
inductive PyExn
  | typeError
  | valueError
  | keyError
  | providerConnectionError
  | providerQueryError
deriving Repr, DecidableEq

/-- Error codes used in exception response bodies. -/
inductive ErrCode
  | InvalidParameterValue
  | MissingParameterValue
  | NotFound
  | NoApplicableCode
deriving Repr, DecidableEq

/-- Body of a 4xx/5xx response: code plus description. -/
structure ErrBody where
  code : ErrCode
  description : String
deriving Repr, DecidableEq

/-- A hypermedia link as built in api.py; title is absent on some links. -/
structure Link where
  rel : String
  type : String
  title : Option String := none
  href : String
  hreflang : Option String := none
deriving Repr, DecidableEq

/-- Temporal extent of a collection (config extents.temporal); timestamps
abstracted as integers, None meaning unbounded. -/
structure TemporalExtent where
  tbegin : Option Int
  tend : Option Int
deriving Repr, DecidableEq

/-- Per-collection configuration used by the embedded endpoints. -/
structure DatasetConfig where
  title : String
  temporal : TemporalExtent
  context : List String := []
deriving Repr, DecidableEq

/-- Server block of the configuration. -/
structure ServerConfig where
  url : String
  language : String
  limit : Int
deriving Repr, DecidableEq

/-- metadata.identification block of the configuration. -/
structure Identification where
  title : String
  description : String
deriving Repr, DecidableEq

/-- metadata block of the configuration (fields unused by the claims elided). -/
structure Metadata where
  identification : Identification
deriving Repr, DecidableEq

/-- Process-wide configuration, loaded once; datasets and processes keyed
by name. -/
structure Config where
  server : ServerConfig
  metadata : Metadata
  datasets : List (String × DatasetConfig)
  processes : List String := []
deriving Repr, DecidableEq

/-- Dataset lookup in the configuration (config datasets dict). -/
def dsget (cfg : Config) (dataset : String) : Option DatasetConfig :=
  ((cfg.datasets.find? (fun kv => kv.1 == dataset)).map Prod.snd)

/-- A GeoJSON feature: optional id plus a properties dict. -/
structure Feature where
  id : Option String := none
  properties : List (String × String) := []
deriving Repr, DecidableEq

/-- Page of records returned by a provider query. -/
structure PageDoc where
  features : List Feature
deriving Repr, DecidableEq

/-- The argument record of a provider query call (p.query keyword args). -/
structure QueryCall where
  startindex : Int
  limit : Int
  resulttype : String
  bbox : List String
  datetime : Option String
  properties : List (String × String)
  sortby : List (String × String)
deriving Repr, DecidableEq

/-- Provider plugin contract: declared fields, a page query and a
single-record fetch, each able to raise. -/
structure Provider where
  fields : List String
  query : QueryCall → Except PyExn PageDoc
  get : String → Except PyExn (Option Feature)

/-! ## String helpers

Kernel-reducible stand-ins for the Python string operations used by the
source (str.split with a one-character separator, membership, lower). -/

/-- Split a character list at every occurrence of the separator; mirrors
Python str.split(sep) for a one-character sep (empty string gives [""]). -/
def splitCharList (c : Char) : List Char → List (List Char)
  | [] => [[]]
  | x :: xs =>
    let r := splitCharList c xs
    if x = c then [] :: r
    else
      match r with
      | [] => [[x]]
      | y :: ys => (x :: y) :: ys

/-- Python s.split(c) for a one-character separator. -/
def pySplit (s : String) (c : Char) : List String :=
  (splitCharList c s.data).map (fun l => String.mk l)

/-- Python (c in s) for a character. -/
def strContains (s : String) (c : Char) : Bool :=
  s.data.contains c

/-- Python s.lower() restricted to ASCII, as used on plugin names. -/
def lowerStr (s : String) : String :=
  String.mk (s.data.map Char.toLower)

example : pySplit "a,,b" ',' = ["a", "", "b"] := by decide
example : pySplit "" ',' = [""] := by decide

/-! ## FormatNegotiator: check_format (api.py lines 1074-1109) -/

/-- check_format(args, headers): an explicit f query parameter wins when
truthy (Python if format_), else a case-split lookup of the accept header
(lowercase key preferred), split on commas and matched in priority order. -/
def check_format (args headers : Args) : Option String :=
  let format_ := dget args "f"
  match format_ with
  | some f =>
    if f ≠ "" then some f
    else acceptFormat headers
  | none => acceptFormat headers
where
  /-- The Accept-header fallback of check_format (lines 1092-1109). -/
  acceptFormat (headers : Args) : Option String :=
    let headers_ := match dget headers "accept" with
      | some h => some h
      | none => dget headers "Accept"
    match headers_ with
    | some h =>
      if h ≠ "" then
        let parts := pySplit h ','
        if "text/html" ∈ parts then some "html"
        else if "application/ld+json" ∈ parts then some "jsonld"
        else if "application/json" ∈ parts then some "json"
        else none
      else none
    | none => none

/-- The endpoint-side allow-list check: format_ is not None and
format_ not in formats. -/
def formatBad (format_ : Option String) (formats : List String) : Bool :=
  match format_ with
  | none => false
  | some f => !(formats.contains f)

example : check_format [("f", "csv")] [] = some "csv" := by decide
example : check_format [] [("accept", "application/ld+json,text/html")] = some "html" := by decide
example : check_format [("f", "")] [("Accept", "application/json")] = some "json" := by decide

/-! ## QueryValidator stages of get_features (api.py lines 595-724) -/

/-- Whitespace characters stripped by the Python int constructor. -/
def isPyWs (c : Char) : Bool :=
  c = ' ' || c = '\t' || c = '\n' || c = '\r'

/-- Numeric value of a digit list, most significant first. -/
def digitsToNat : List Char → Nat
  | [] => 0
  | c :: cs => digitsToNat cs + c.toNat.sub 48 * 10 ^ cs.length

/-- Parse a string the way the Python int constructor does: optional
surrounding whitespace, optional sign, at least one decimal digit. -/
def pyParseInt (s : String) : Option Int :=
  let t := ((s.data.dropWhile isPyWs).reverse.dropWhile isPyWs).reverse
  let (neg, digits) :=
    match t with
    | '-' :: rest => (true, rest)
    | '+' :: rest => (false, rest)
    | rest => (false, rest)
  if digits ≠ [] && digits.all Char.isDigit then
    some (if neg then -(digitsToNat digits : Int) else (digitsToNat digits : Int))
  else none

/-- Python int(x) on an optional string: TypeError on None, ValueError on a
non-numeric string. -/
def pyInt : Option String → Except PyExn Int
  | none => .error .typeError
  | some s =>
    match pyParseInt s with
    | some n => .ok n
    | none => .error .valueError

example : pyParseInt " -42 " = some (-42) := by decide
example : pyParseInt "abc" = none := by decide
example : pyParseInt "" = none := by decide

/-- startindex parsing (lines 597-601): int(args.get) with only TypeError
caught, defaulting to 0; a ValueError propagates. -/
def parsedStartindex (args : Args) : Except PyExn Int :=
  match pyInt (dget args "startindex") with
  | .ok n => .ok n
  | .error .typeError => .ok 0
  | .error e => .error e

/-- limit parsing (lines 603-607): int(args.get) with only TypeError caught,
defaulting to the configured server limit; a ValueError propagates. -/
def parsedLimit (args : Args) (cfg : Config) : Except PyExn Int :=
  match pyInt (dget args "limit") with
  | .ok n => .ok n
  | .error .typeError => .ok cfg.server.limit
  | .error e => .error e

/-- resulttype (line 609): args.get or the default, with an empty string
also falling back (Python or). -/
def resulttypeOf (args : Args) : String :=
  match dget args "resulttype" with
  | some s => if s = "" then "results" else s
  | none => "results"

/-- bbox parsing (lines 611-622): absent gives [] (the AttributeError arm),
a present value is split on commas and must have exactly 4 parts, else a
400 body is produced. -/
def bboxStage (args : Args) : Except ErrBody (List String) :=
  match dget args "bbox" with
  | none => .ok []
  | some s =>
    let bbox := pySplit s ','
    if bbox.length ≠ 4 then
      .error ⟨.InvalidParameterValue, "bbox values should be minx,miny,maxx,maxy"⟩
    else .ok bbox

/-- One side of a datetime range after the literal-dots check: either the
unbounded marker or a parsed timestamp. -/
inductive DtEndpoint
  | dots
  | ts (t : Int)
deriving Repr, DecidableEq

/-- The external dateutil parser, abstracted: timestamps are integers under
an order-preserving encoding, and non-timestamp text raises ValueError. -/
def dateparse (s : String) : Except PyExn Int :=
  match pyParseInt s with
  | some n => .ok n
  | none => .error .valueError

/-- Range validity check (lines 646-652): the begin endpoint is compared
only against the declared begin, the end endpoint only against the declared
end, and a dots endpoint or an unset bound skips its comparison. -/
def rangeInvalid (db de : DtEndpoint) (te : TemporalExtent) : Bool :=
  (match db, te.tbegin with
   | .ts t, some tb => decide (t < tb)
   | _, _ => false) ||
  (match de, te.tend with
   | .ts t, some tn => decide (tn < t)
   | _, _ => false)

/-- Instant validity check (lines 655-662): the instant is compared against
both declared bounds, an unset bound skipping its comparison. -/
def instantInvalid (t : Int) (te : TemporalExtent) : Bool :=
  (match te.tbegin with
   | some tb => decide (t < tb)
   | none => false) ||
  (match te.tend with
   | some tn => decide (tn < t)
   | none => false)

/-- datetime validation (lines 631-663): computes the datetime_invalid flag;
a malformed range (wrong number of slashes) or unparseable timestamp raises. -/
def datetimeInvalid (dtOpt : Option String) (te : TemporalExtent) : Except PyExn Bool :=
  match dtOpt with
  | none => .ok false
  | some dt =>
    if strContains dt '/' then
      match pySplit dt '/' with
      | [b, e] => do
        let db ← if b = ".." then pure DtEndpoint.dots else (dateparse b).map DtEndpoint.ts
        let de ← if e = ".." then pure DtEndpoint.dots else (dateparse e).map DtEndpoint.ts
        pure (rangeInvalid db de te)
      | _ => .error .valueError
    else do
      let t ← dateparse dt
      pure (instantInvalid t te)

example : datetimeInvalid (some "../..") ⟨some 5, some 9⟩ = .ok false := by decide
example : datetimeInvalid (some "3/..") ⟨some 5, some 9⟩ = .ok true := by decide
example : datetimeInvalid (some "300/..") ⟨none, some 250⟩ = .ok false := by decide
example : datetimeInvalid (some "7") ⟨some 5, some 6⟩ = .ok true := by decide

/-- The reserved parameter names of get_features (lines 572-573); note the
source list does not include sortby. -/
def reserved_fieldnames : List String :=
  ["bbox", "f", "limit", "startindex", "resulttype", "datetime"]

/-- Property-filter selection (lines 691-694): request parameters that are
not reserved and name a declared provider field are forwarded. -/
def computeProperties (args : Args) (fields : List String) : List (String × String) :=
  args.filter (fun kv => !(reserved_fieldnames.contains kv.1) && fields.contains kv.1)

/-- First sortby loop (lines 700-714): split each comma part, reject a bad
order with a 400 body, default a bare property to ascending; a part with
more than one colon raises ValueError at the two-way unpack. -/
def buildSorts : List String → Except PyExn (Except ErrBody (List (String × String)))
  | [] => .ok (.ok [])
  | s :: rest =>
    if strContains s ':' then
      match pySplit s ':' with
      | [prop, order] =>
        if order ≠ "A" ∧ order ≠ "D" then
          .ok (.error ⟨.InvalidParameterValue, "sort order should be A or D"⟩)
        else
          match buildSorts rest with
          | .ok (.ok tl) => .ok (.ok ((prop, order) :: tl))
          | other => other
      | _ => .error .valueError
    else
      match buildSorts rest with
      | .ok (.ok tl) => .ok (.ok ((s, "A") :: tl))
      | other => other

/-- sortby processing (lines 696-724): build the sort list, then reject any
sort property that is not a declared provider field. -/
def sortbyStage (val : Option String) (fields : List String) :
    Except PyExn (Except ErrBody (List (String × String))) :=
  match val with
  | none => .ok (.ok [])
  | some v =>
    match buildSorts (pySplit v ',') with
    | .ok (.ok sortby) =>
      if sortby.all (fun s => fields.contains s.1) then .ok (.ok sortby)
      else .ok (.error ⟨.InvalidParameterValue, "bad sort property"⟩)
    | other => other

example : sortbyStage (some "name:D") ["name"] = .ok (.ok [("name", "D")]) := by decide
example : sortbyStage (some "name:X") ["name"] =
    .ok (.error ⟨.InvalidParameterValue, "sort order should be A or D"⟩) := by decide
example : sortbyStage (some "oops") ["name"] =
    .ok (.error ⟨.InvalidParameterValue, "bad sort property"⟩) := by decide

/-! ## ResourceAssembler: pagination cursors and link sets -/

/-- prev cursor (lines 752-754): startindex minus the configured server
limit, clamped at zero; the limit of the request is not used. -/
def prevVal (cfg : Config) (startindex : Int) : Int :=
  let p := startindex - cfg.server.limit
  if p < 0 then 0 else p

/-- next cursor (line 756): startindex plus the configured server limit. -/
def nextVal (cfg : Config) (startindex : Int) : Int :=
  startindex + cfg.server.limit

/-- The six links attached to an items response (lines 758-795). -/
def featuresLinks (cfg : Config) (dcfg : DatasetConfig) (dataset : String)
    (format_ : Option String) (prev next_ : Int) : List Link :=
  let url := cfg.server.url
  [ { rel := if format_ = some "json" then "self" else "alternate",
      type := "application/geo+json",
      title := some "This document as GeoJSON",
      href := url ++ "/collections/" ++ dataset ++ "/items?f=json" },
    { rel := if format_ ≠ some "json" then "self" else "alternate",
      type := "application/ld+json",
      title := some "This document as RDF (JSON-LD)",
      href := url ++ "/collections/" ++ dataset ++ "/items?f=jsonld" },
    { rel := if format_ ≠ some "html" then "alternate" else "self",
      type := "text/html",
      title := some "This document as HTML",
      href := url ++ "/collections/" ++ dataset ++ "/items?f=html" },
    { rel := "prev",
      type := "application/geo+json",
      title := some "items (prev)",
      href := url ++ "/collections/" ++ dataset ++ "/items/?startindex=" ++ toString prev },
    { rel := "next",
      type := "application/geo+json",
      title := some "items (next)",
      href := url ++ "/collections/" ++ dataset ++ "/items/?startindex=" ++ toString next_ },
    { rel := "collection",
      type := "application/json",
      title := some dcfg.title,
      href := url ++ "/collections/" ++ dataset } ]

/-- The six links attached to a single-item response (lines 893-928);
the prev and next links carry no title in the source. -/
def featureLinks (cfg : Config) (dcfg : DatasetConfig) (dataset identifier : String)
    (format_ : Option String) : List Link :=
  let url := cfg.server.url
  [ { rel := if format_ = some "json" then "self" else "alternate",
      type := "application/geo+json",
      title := some "This document as GeoJSON",
      href := url ++ "/collections/" ++ dataset ++ "/items/" ++ identifier ++ "?f=json" },
    { rel := if format_ ≠ some "json" then "self" else "alternate",
      type := "application/ld+json",
      title := some "This document as RDF (JSON-LD)",
      href := url ++ "/collections/" ++ dataset ++ "/items/" ++ identifier ++ "?f=jsonld" },
    { rel := if format_ ≠ some "html" then "alternate" else "self",
      type := "text/html",
      title := some "This document as HTML",
      href := url ++ "/collections/" ++ dataset ++ "/items/" ++ identifier ++ "?f=html" },
    { rel := "collection",
      type := "application/json",
      title := some dcfg.title,
      href := url ++ "/collections/" ++ dataset },
    { rel := "prev",
      type := "application/geo+json",
      href := url ++ "/collections/" ++ dataset ++ "/items/" ++ identifier },
    { rel := "next",
      type := "application/geo+json",
      href := url ++ "/collections/" ++ dataset ++ "/items/" ++ identifier } ]

/-- The link catalogue of the landing page (lines 251-289). -/
def rootLinks (cfg : Config) : List Link :=
  let url := cfg.server.url
  [ { rel := "self", type := "application/json",
      title := some "This document as JSON", href := url },
    { rel := "self", type := "application/ld+json",
      title := some "This document as RDF (JSON-LD)", href := url },
    { rel := "self", type := "text/html",
      title := some "This document as HTML", href := url ++ "?f=html",
      hreflang := some cfg.server.language },
    { rel := "service", type := "application/openapi+json;version=3.0",
      title := some "The OpenAPI definition as JSON", href := url ++ "/api" },
    { rel := "self", type := "text/html",
      title := some "The OpenAPI definition as HTML", href := url ++ "/api?f=html",
      hreflang := some cfg.server.language },
    { rel := "conformance", type := "application/json",
      title := some "Conformance", href := url ++ "/conformance" },
    { rel := "data", type := "application/json",
      title := some "Collections", href := url ++ "/collections" } ]

/-- The href rewrite applied to landing-page links before HTML rendering
(lines 291-298). -/
def rootHtmlHref (l : Link) : Link :=
  let fparam : Option String :=
    if l.type = "application/json" then some "json"
    else if l.type = "application/ld+json" then some "jsonld"
    else none
  { l with href := l.href ++ (match fparam with
      | some p => "?f=" ++ p
      | none => "") }

/-! ## RepresentationRenderer: JSON-LD transform (lines 1123-1153) -/

/-- The canonical GeoJSON-LD vocabulary URI (line 1142). -/
def canonicalGeoJsonLdContext : String :=
  "https://geojson.org/geojson-ld/geojson-context.jsonld"

/-- An items document as handed to the renderer: provider page content
plus the attached links and response timestamp. -/
structure FeaturesDoc where
  features : List Feature
  links : List Link
  timeStamp : String
deriving Repr, DecidableEq

/-- The GeoJSON input of geojson2geojsonld: either an item-list document
or a single-item document. -/
inductive GeoData
  | page (d : FeaturesDoc)
  | item (f : Feature) (links : List Link)
deriving Repr, DecidableEq

/-- The rendered GeoJSON-LD document: context list, computed id, and the
original content (features rewritten for a list document). -/
structure LdDoc where
  context : List String
  id : String
  data : GeoData
deriving Repr, DecidableEq

/-- Remove the first binding of a key, as dict.pop does on a unique key. -/
def eraseKeyFirst : List (String × String) → String → List (String × String)
  | [], _ => []
  | kv :: rest, k => if kv.1 = k then rest else kv :: eraseKeyFirst rest k

/-- properties.pop of the id field (line 1150): the popped value, if any,
together with the remaining properties. -/
def popId (props : List (String × String)) : Option String × List (String × String) :=
  match dget props "id" with
  | some v => (some v, eraseKeyFirst props "id")
  | none => (none, props)

/-- Derived feature id for the list rewrite (line 1150): the own id when
truthy, else the id popped out of the properties map. -/
def ldFeatureId (f : Feature) : Option String × List (String × String) :=
  match f.id with
  | some s => if s ≠ "" then (some s, f.properties) else popId f.properties
  | none => popId f.properties

/-- geojson2geojsonld (lines 1123-1153): prepend the canonical vocabulary
URI to the configured collection context, compute the document id, and for
a list document rewrite each feature id to listId/featureId, skipping
features with no derivable id; a missing dataset raises KeyError, as does
the features access on a non-list document. -/
def geojson2geojsonld (cfg : Config) (data : GeoData) (dataset : String)
    (identifier : Option String) : Except PyExn LdDoc :=
  match dsget cfg dataset with
  | none => .error .keyError
  | some dcfg =>
    let dataId :=
      match identifier with
      | some ident => cfg.server.url ++ "/collections/" ++ dataset ++ "/items/" ++ ident
      | none => cfg.server.url ++ "/collections/" ++ dataset ++ "/items"
    let ctxList := canonicalGeoJsonLdContext :: dcfg.context
    match identifier with
    | some _ => .ok ⟨ctxList, dataId, data⟩
    | none =>
      match data with
      | .item _ _ => .error .keyError
      | .page d =>
        let newFeats := d.features.map (fun f =>
          match ldFeatureId f with
          | (none, _) => f
          | (some fid, props) =>
            { f with id := some (dataId ++ "/" ++ fid), properties := props })
        .ok ⟨ctxList, dataId, .page { d with features := newFeats }⟩

/-! ## Endpoint result bodies -/

/-- Body of an items response: an error document, or the content document
tagged with the representation branch that produced it (the HTML branch
carries the extra path fields handed to the template, the CSV branch the
document handed to the formatter plugin). -/
inductive Body
  | exn (e : ErrBody)
  | json (d : FeaturesDoc)
  | html (d : FeaturesDoc) (items_path dataset_path collections_path : String) (startindex : Int)
  | csvOut (d : FeaturesDoc)
  | jsonld (d : LdDoc)
deriving Repr, DecidableEq

/-- Body of a single-item response. -/
inductive FeatBody
  | exn (e : ErrBody)
  | json (f : Feature) (links : List Link)
  | html (f : Feature) (links : List Link)
  | ld (d : LdDoc)
deriving Repr, DecidableEq

/-- Body of a landing-page response; the JSON-LD branch serialises the
schema.org DataCatalog document built by the jsonldify decorator, which
carries no links array and is elided here. -/
inductive RootBody
  | exn (e : ErrBody)
  | fcm (title description : String) (links : List Link)
  | htmlDoc (title description : String) (links : List Link)
  | ld
deriving Repr, DecidableEq

/-- Body of an execute-process response. -/
inductive PBody
  | exn (e : ErrBody)
  | outputs (o : String)
  | raw (mime : String) (o : String)
deriving Repr, DecidableEq

/-! ## API.get_features (lines 557-844)

The module-level FORMATS list is passed in and returned: the source binds
formats = FORMATS and then extends that alias in place (lines 574-575), so
the list after the call is the input list plus the lowercased formatter
plugin names, whatever else the request does. -/

/-- Python s.strip of the slash character. -/
def stripSlashes (s : String) : String :=
  String.mk (((s.data.dropWhile (fun c => c = '/')).reverse.dropWhile
    (fun c => c = '/')).reverse)

/-- Drop the last slash-separated segment (join of split slices). -/
def dropLastSeg (s : String) : String :=
  String.intercalate "/" ((pySplit s '/').dropLast)

/-- get_features: dataset and format validation, query-parameter parsing,
provider dispatch with gateway error translation, pagination links and
representation branching, following lines 557-844 stage by stage.
The provider plugin load and the formatter registry contents are passed
in (their code lives outside api.py); envPathInfo models the PATH_INFO
read from the framework headers object in the HTML branch. -/
def get_features (formatsIn : List String) (formatterPlugins : List String)
    (cfg : Config) (provLoad : Except PyExn Provider)
    (headers : Args) (envPathInfo : String) (args : Args)
    (dataset : String) (pathinfo : Option String) (now : String) :
    List String × Except PyExn (Nat × Body) :=
  let formats := formatsIn ++ formatterPlugins.map lowerStr
  (formats,
    match dsget cfg dataset with
    | none => .ok (400, .exn ⟨.InvalidParameterValue, "Invalid feature collection"⟩)
    | some dcfg =>
      let format_ := check_format args headers
      if formatBad format_ formats then
        .ok (400, .exn ⟨.InvalidParameterValue, "Invalid format"⟩)
      else
        match parsedStartindex args with
        | .error e => .error e
        | .ok startindex =>
        match parsedLimit args cfg with
        | .error e => .error e
        | .ok limit =>
        let resulttype := resulttypeOf args
        match bboxStage args with
        | .error eb => .ok (400, .exn eb)
        | .ok bbox =>
        match datetimeInvalid (dget args "datetime") dcfg.temporal with
        | .error e => .error e
        | .ok true => .ok (400, .exn ⟨.InvalidParameterValue, "datetime parameter out of range"⟩)
        | .ok false =>
        match provLoad with
        | .error .providerConnectionError =>
          .ok (500, .exn ⟨.NoApplicableCode, "connection error (check logs)"⟩)
        | .error .providerQueryError =>
          .ok (500, .exn ⟨.NoApplicableCode, "query error (check logs)"⟩)
        | .error e => .error e
        | .ok p =>
        let properties := computeProperties args p.fields
        match sortbyStage (dget args "sortby") p.fields with
        | .error e => .error e
        | .ok (.error eb) => .ok (400, .exn eb)
        | .ok (.ok sortby) =>
        match p.query ⟨startindex, limit, resulttype, bbox,
                       dget args "datetime", properties, sortby⟩ with
        | .error .providerConnectionError =>
          .ok (500, .exn ⟨.NoApplicableCode, "connection error (check logs)"⟩)
        | .error .providerQueryError =>
          .ok (500, .exn ⟨.NoApplicableCode, "query error (check logs)"⟩)
        | .error e => .error e
        | .ok page =>
        let prev := prevVal cfg startindex
        let next_ := nextVal cfg startindex
        let links := featuresLinks cfg dcfg dataset format_ prev next_
        let content : FeaturesDoc := ⟨page.features, links, now⟩
        match format_ with
        | some "html" =>
          let path_info :=
            match pathinfo with
            | some pinf => cfg.server.url ++ "/" ++ stripSlashes pinf
            | none => cfg.server.url ++ "/" ++ stripSlashes envPathInfo
          .ok (200, .html content path_info (dropLastSeg path_info)
                 (dropLastSeg (dropLastSeg path_info)) startindex)
        | some "csv" => .ok (200, .csvOut content)
        | some "jsonld" =>
          match geojson2geojsonld cfg (.page content) dataset none with
          | .error e => .error e
          | .ok ld => .ok (200, .jsonld ld)
        | _ => .ok (200, .json content))

/-! ## API.get_feature (lines 846-944) -/

/-- Overwrite the rel of the link at an index, as the HTML branch does on
the content links list. -/
def setRel : List Link → Nat → String → List Link
  | [], _, _ => []
  | l :: ls, 0, r => { l with rel := r } :: ls
  | l :: ls, n + 1, r => l :: setRel ls n r

/-- get_feature: format and dataset validation, then a provider fetch with
no try/except around the plugin load or the get call (lines 878-883), so a
provider failure propagates as an uncaught exception; None from the
provider is a 404. -/
def get_feature (formatsIn : List String) (cfg : Config)
    (provLoad : Except PyExn Provider) (headers args : Args)
    (dataset identifier : String) : Except PyExn (Nat × FeatBody) :=
  let format_ := check_format args headers
  if formatBad format_ formatsIn then
    .ok (400, .exn ⟨.InvalidParameterValue, "Invalid format"⟩)
  else
    match dsget cfg dataset with
    | none => .ok (400, .exn ⟨.InvalidParameterValue, "Invalid feature collection"⟩)
    | some dcfg =>
      match provLoad with
      | .error e => .error e
      | .ok p =>
        match p.get identifier with
        | .error e => .error e
        | .ok none => .ok (404, .exn ⟨.NotFound, "identifier not found"⟩)
        | .ok (some feature) =>
          let links := featureLinks cfg dcfg dataset identifier format_
          match format_ with
          | some "html" =>
            let links2 := setRel (setRel links 0 "alternate") 1 "self"
            .ok (200, .html feature links2)
          | some "jsonld" =>
            match geojson2geojsonld cfg (.item feature links) dataset (some identifier) with
            | .error e => .error e
            | .ok ld => .ok (200, .ld ld)
          | _ => .ok (200, .json feature links)

/-! ## API.root (lines 222-308) -/

/-- root: format check against the module FORMATS list, then the link
catalogue; the HTML branch rewrites hrefs, the JSON-LD branch returns the
DataCatalog document built by the jsonldify decorator. -/
def root (formatsIn : List String) (cfg : Config) (headers args : Args) :
    Nat × RootBody :=
  let format_ := check_format args headers
  if formatBad format_ formatsIn then
    (400, .exn ⟨.InvalidParameterValue, "Invalid format"⟩)
  else
    let title := cfg.metadata.identification.title
    let description := cfg.metadata.identification.description
    let links := rootLinks cfg
    match format_ with
    | some "html" => (200, .htmlDoc title description (links.map rootHtmlHref))
    | some "jsonld" => (200, .ld)
    | _ => (200, .fcm title description links)

/-! ## API.execute_process (lines 1013-1071) -/

/-- Python falsiness of the optional request body. -/
def pyFalsyBody : Option String → Bool
  | none => true
  | some s => s = ""

/-- Modelled from the spec: pygeoapi.util.str2bool is imported by api.py
but its module is not part of the embedded source; modelled as recognising
the usual true spellings of a flag value. -/
def str2bool (v : String) : Bool :=
  v ∈ ["true", "1", "yes", "True", "TRUE"]

/-- The inputs loop of execute_process (lines 1052-1053): dict assignment,
a later binding of the same id overwriting the earlier one. -/
def buildDataDict (inputs : List (String × String)) : List (String × String) :=
  inputs.foldl (fun d kv => (eraseKeyFirst d kv.1) ++ [kv]) []

/-- A process plugin: execution either returns an outputs payload or
raises with a message, plus the single output mime type of its metadata. -/
structure Process where
  execute : List (String × String) → Except String String
  mimeType : String

/-- execute_process (lines 1013-1071): falsy body gives 400
MissingParameterValue, an unknown process id 404 NotFound; the body is
then decoded (json.loads plus the inputs loop, decode passed in since the
json module is external) and the processor run with every execution-time
exception caught and returned as 400 InvalidParameterValue carrying the
raised message; success is 201. -/
def execute_process (cfg : Config) (p : Process)
    (decode : String → Except PyExn (List (String × String)))
    (_headers args : Args) (data : Option String) (process : String) :
    Except PyExn (Nat × PBody) :=
  if pyFalsyBody data then
    .ok (400, .exn ⟨.MissingParameterValue, "missing request data"⟩)
  else if !(cfg.processes.contains process) then
    .ok (404, .exn ⟨.NotFound, "identifier not found"⟩)
  else
    match decode (match data with | some s => s | none => "") with
    | .error e => .error e
    | .ok inputs =>
      let data_dict := buildDataDict inputs
      match p.execute data_dict with
      | .ok outputs =>
        (match dget args "raw" with
         | some v =>
           if str2bool v then .ok (201, .raw p.mimeType outputs)
           else .ok (201, .outputs outputs)
         | none => .ok (201, .outputs outputs))
      | .error msg => .ok (400, .exn ⟨.InvalidParameterValue, msg⟩)

/-! ## Concrete fixtures for evaluation -/

/-- The initial value of the module FORMATS list (lines 58-59). -/
def stdFormats : List String := ["json", "html", "jsonld"]

/-- A dataset with an unbounded temporal extent and no context. -/
def dcfgPlain : DatasetConfig := { title := "DS", temporal := ⟨none, none⟩ }

/-- A dataset whose declared temporal extent ends at 250. -/
def dcfgEnd250 : DatasetConfig := { title := "DS", temporal := ⟨none, some 250⟩ }

/-- A dataset carrying two configured JSON-LD context entries. -/
def dcfgCtx : DatasetConfig :=
  { title := "DS", temporal := ⟨none, none⟩, context := ["ctxA", "ctxB"] }

/-- A configuration with server limit 10 and a single dataset ds. -/
def mkCfg (d : DatasetConfig) : Config :=
  { server := { url := "http://x", language := "en", limit := 10 },
    metadata := ⟨⟨"T", "D"⟩⟩,
    datasets := [("ds", d)],
    processes := ["hello"] }

/-- A provider with no declared fields whose query returns an empty page. -/
def provEmpty : Provider :=
  { fields := [], query := fun _ => .ok ⟨[]⟩, get := fun _ => .ok none }

/-- A provider declaring the fields sortby and foo whose query echoes the
forwarded property-filter names back as feature ids, making the forwarded
filters observable in the response. -/
def provEcho : Provider :=
  { fields := ["sortby", "foo"],
    query := fun qc => .ok ⟨qc.properties.map (fun kv => { id := some kv.1 })⟩,
    get := fun _ => .ok none }

example :
    (get_features stdFormats [] (mkCfg dcfgPlain) (.ok provEmpty) [] ""
      [("startindex", "20"), ("limit", "5")] "ds" none "T").2 =
    .ok (200, .json ⟨[], featuresLinks (mkCfg dcfgPlain) dcfgPlain "ds" none 10 30, "T"⟩) := by
  decide

example :
    ((featuresLinks (mkCfg dcfgPlain) dcfgPlain "ds" none 10 30).filter
      (fun l => l.rel == "prev")).map Link.href =
    ["http://x/collections/ds/items/?startindex=10"] := by decide

/-- A process plugin that raises with the message boom. -/
def procBoom : Process := { execute := fun _ => .error "boom", mimeType := "text/plain" }

/-- A trivially succeeding body decoder. -/
def decodeOk : String → Except PyExn (List (String × String)) := fun _ => .ok [("a", "b")]

/-- Number of links in a link set carrying rel self. -/
def selfCount (ls : List Link) : Nat :=
  (ls.filter (fun l => l.rel == "self")).length

/-! ## Claim C1 -/

/-- C1 counterexample: with configured server limit 10, a request with
limit=5 and startindex=20 yields pagination hrefs built from the
configured limit (prev 10, next 30), not from the limit in effect for the
request (which would give prev 15, next 25), refuting the claim as
stated at this input. -/
theorem C1_counterexample :
    (get_features stdFormats [] (mkCfg dcfgPlain) (.ok provEmpty) [] ""
      [("startindex", "20"), ("limit", "5")] "ds" none "T").2 =
      .ok (200, .json ⟨[], featuresLinks (mkCfg dcfgPlain) dcfgPlain "ds" none 10 30, "T"⟩)
    ∧ ((featuresLinks (mkCfg dcfgPlain) dcfgPlain "ds" none 10 30).filter
        (fun l => l.rel == "prev")).map Link.href =
        ["http://x/collections/ds/items/?startindex=10"]
    ∧ ((featuresLinks (mkCfg dcfgPlain) dcfgPlain "ds" none 10 30).filter
        (fun l => l.rel == "next")).map Link.href =
        ["http://x/collections/ds/items/?startindex=30"]
    ∧ "http://x/collections/ds/items/?startindex=10" ≠
        "http://x/collections/ds/items/?startindex=" ++ toString (max 0 ((20 : Int) - 5))
    ∧ "http://x/collections/ds/items/?startindex=30" ≠
        "http://x/collections/ds/items/?startindex=" ++ toString ((20 : Int) + 5) := by
  decide

/-- C1 amended: the items link set always contains both a prev link with
cursor max(0, startindex - configuredLimit) and a next link with cursor
startindex + configuredLimit, where configuredLimit is the server default
page limit, regardless of the limit of the request, the format, and the
result-set size. -/
theorem C1_pagination_configured_limit (cfg : Config) (dcfg : DatasetConfig)
    (dataset : String) (format_ : Option String) (startindex : Int) :
    (Link.mk "prev" "application/geo+json" (some "items (prev)")
        (cfg.server.url ++ "/collections/" ++ dataset ++ "/items/?startindex=" ++
          toString (max 0 (startindex - cfg.server.limit))) none
      ∈ featuresLinks cfg dcfg dataset format_
          (prevVal cfg startindex) (nextVal cfg startindex))
    ∧ (Link.mk "next" "application/geo+json" (some "items (next)")
        (cfg.server.url ++ "/collections/" ++ dataset ++ "/items/?startindex=" ++
          toString (startindex + cfg.server.limit)) none
      ∈ featuresLinks cfg dcfg dataset format_
          (prevVal cfg startindex) (nextVal cfg startindex)) := by
  have hp : prevVal cfg startindex = max 0 (startindex - cfg.server.limit) := by
    simp only [prevVal, max_def]
    split <;> split <;> omega
  have hn : nextVal cfg startindex = startindex + cfg.server.limit := rfl
  rw [hp, hn]
  constructor
  · simp [featuresLinks, List.mem_cons]
  · simp [featuresLinks, List.mem_cons]

/-! ## Claim C2 -/

/-- C2 counterexample: the landing page rendered as plain JSON attaches a
link set with four rel self entries (JSON, JSON-LD, HTML, and the OpenAPI
HTML view), not exactly one, refuting the claim at this input. -/
theorem C2_counterexample :
    root stdFormats (mkCfg dcfgPlain) [] [("f", "json")] =
      (200, .fcm "T" "D" (rootLinks (mkCfg dcfgPlain)))
    ∧ selfCount (rootLinks (mkCfg dcfgPlain)) = 4
    ∧ (4 : Nat) ≠ 1 := by
  decide

/-- C2 amended: only when the resolved format is explicitly json or jsonld
do the items and single-item link sets carry exactly one rel self link
whose media type is the representation being rendered (geo+json for json,
ld+json for jsonld) with the sibling representation links rel alternate;
when no format is resolved (the default json rendering) the link set still
carries exactly one rel self link, but it is the application/ld+json one,
mismatched with the json actually rendered; the landing-page link set
carries four rel self links and the html link sets carry two. -/
theorem C2_items_item_self_unique (cfg : Config) (dcfg : DatasetConfig)
    (dataset identifier : String) (prev next_ : Int) :
    (selfCount (featuresLinks cfg dcfg dataset (some "json") prev next_) = 1
     ∧ ((featuresLinks cfg dcfg dataset (some "json") prev next_).filter
         (fun l => l.rel == "self")).map Link.type = ["application/geo+json"]
     ∧ (featuresLinks cfg dcfg dataset (some "json") prev next_).map Link.rel =
         ["self", "alternate", "alternate", "prev", "next", "collection"])
    ∧ (selfCount (featuresLinks cfg dcfg dataset (some "jsonld") prev next_) = 1
     ∧ ((featuresLinks cfg dcfg dataset (some "jsonld") prev next_).filter
         (fun l => l.rel == "self")).map Link.type = ["application/ld+json"]
     ∧ (featuresLinks cfg dcfg dataset (some "jsonld") prev next_).map Link.rel =
         ["alternate", "self", "alternate", "prev", "next", "collection"])
    ∧ (selfCount (featureLinks cfg dcfg dataset identifier (some "json")) = 1
     ∧ ((featureLinks cfg dcfg dataset identifier (some "json")).filter
         (fun l => l.rel == "self")).map Link.type = ["application/geo+json"]
     ∧ (featureLinks cfg dcfg dataset identifier (some "json")).map Link.rel =
         ["self", "alternate", "alternate", "collection", "prev", "next"])
    ∧ (selfCount (featureLinks cfg dcfg dataset identifier (some "jsonld")) = 1
     ∧ ((featureLinks cfg dcfg dataset identifier (some "jsonld")).filter
         (fun l => l.rel == "self")).map Link.type = ["application/ld+json"]
     ∧ (featureLinks cfg dcfg dataset identifier (some "jsonld")).map Link.rel =
         ["alternate", "self", "alternate", "collection", "prev", "next"])
    ∧ (selfCount (featuresLinks cfg dcfg dataset none prev next_) = 1
     ∧ ((featuresLinks cfg dcfg dataset none prev next_).filter
         (fun l => l.rel == "self")).map Link.type = ["application/ld+json"]
     ∧ (featuresLinks cfg dcfg dataset none prev next_).map Link.rel =
         ["alternate", "self", "alternate", "prev", "next", "collection"])
    ∧ (selfCount (featureLinks cfg dcfg dataset identifier none) = 1
     ∧ ((featureLinks cfg dcfg dataset identifier none).filter
         (fun l => l.rel == "self")).map Link.type = ["application/ld+json"]
     ∧ (featureLinks cfg dcfg dataset identifier none).map Link.rel =
         ["alternate", "self", "alternate", "collection", "prev", "next"])
    ∧ ("application/ld+json" : String) ≠ "application/geo+json"
    ∧ (selfCount (featuresLinks cfg dcfg dataset (some "html") prev next_) = 2
     ∧ selfCount (featureLinks cfg dcfg dataset identifier (some "html")) = 2) := by
  refine ⟨⟨?_, ?_, ?_⟩, ⟨?_, ?_, ?_⟩, ⟨?_, ?_, ?_⟩, ⟨?_, ?_, ?_⟩,
    ⟨?_, ?_, ?_⟩, ⟨?_, ?_, ?_⟩, ?_, ⟨?_, ?_⟩⟩ <;>
    simp [selfCount, featuresLinks, featureLinks]

/-! ## Claim C3 -/

/-- C3: every GeoJSON-LD document produced by geojson2geojsonld carries a
context list whose head is the canonical GeoJSON-LD vocabulary URI,
followed by the configured context entries of the collection in their
declared order. -/
theorem C3_context_canonical_first (cfg : Config) (data : GeoData)
    (dataset : String) (identifier : Option String) (dcfg : DatasetConfig)
    (ld : LdDoc) (hds : dsget cfg dataset = some dcfg)
    (hok : geojson2geojsonld cfg data dataset identifier = .ok ld) :
    ld.context = canonicalGeoJsonLdContext :: dcfg.context := by
  unfold geojson2geojsonld at hok
  rw [hds] at hok
  rcases identifier with _ | idf
  · rcases data with d | ⟨f, ls⟩
    · dsimp only at hok
      injection hok with h
      subst h
      rfl
    · dsimp only at hok
      exact Except.noConfusion hok
  · dsimp only at hok
    injection hok with h
    subst h
    rfl

/-- C3 witness: a concrete single-item rendering with two configured
context entries. -/
theorem C3_witness :
    dsget (mkCfg dcfgCtx) "ds" = some dcfgCtx
    ∧ geojson2geojsonld (mkCfg dcfgCtx) (.item ⟨some "f1", []⟩ []) "ds" (some "i1") =
        .ok ⟨[canonicalGeoJsonLdContext, "ctxA", "ctxB"],
             "http://x/collections/ds/items/i1", .item ⟨some "f1", []⟩ []⟩
    ∧ (LdDoc.mk [canonicalGeoJsonLdContext, "ctxA", "ctxB"]
        "http://x/collections/ds/items/i1" (.item ⟨some "f1", []⟩ [])).context =
        canonicalGeoJsonLdContext :: dcfgCtx.context :=
  ⟨by decide, by decide,
    C3_context_canonical_first (mkCfg dcfgCtx) (.item ⟨some "f1", []⟩ []) "ds"
      (some "i1") dcfgCtx _ (by decide) (by decide)⟩

/-! ## Claim C4 -/

/-- C4 counterexample: the source reserved set omits sortby, so a request
with sortby=foo against a provider that declares a field named sortby has
the pair (sortby, foo) forwarded as a property filter; the echo provider
makes the forwarded filter names visible as feature ids in the response. -/
theorem C4_counterexample :
    (get_features stdFormats [] (mkCfg dcfgPlain) (.ok provEcho) [] ""
      [("sortby", "foo")] "ds" none "T").2 =
      .ok (200, .json ⟨[⟨some "sortby", []⟩],
        featuresLinks (mkCfg dcfgPlain) dcfgPlain "ds" none 0 10, "T"⟩)
    ∧ computeProperties [("sortby", "foo")] provEcho.fields = [("sortby", "foo")]
    ∧ "sortby" ∈ ["bbox", "f", "limit", "startindex", "resulttype", "datetime", "sortby"] := by
  decide

/-- C4 amended: a parameter is forwarded as an exact-match property filter
iff it occurs in the request, its name is outside the reserved set
(bbox, f, limit, startindex, resulttype, datetime — without sortby), and
its name is a declared provider field; names outside the field set are
silently dropped. -/
theorem C4_property_filter_iff (args : Args) (fields : List String) (k v : String) :
    (k, v) ∈ computeProperties args fields ↔
      (k, v) ∈ args ∧ k ∉ reserved_fieldnames ∧ k ∈ fields := by
  unfold computeProperties
  simp [List.mem_filter]

/-! ## Claim C5 -/

/-- C5 counterexample: a present but non-integer startindex raises an
uncaught ValueError (only TypeError is caught in the source), so the
request fails instead of defaulting to 0. -/
theorem C5_counterexample :
    (get_features stdFormats [] (mkCfg dcfgPlain) (.ok provEmpty) [] ""
      [("startindex", "abc")] "ds" none "T").2 = .error .valueError := by
  decide

/-- C5 amended: an absent startindex parses to 0 and an absent limit to
the configured server default; a present integer value is taken verbatim;
but a present non-integer value raises ValueError past the TypeError-only
handler, failing the request. -/
theorem C5_parse_defaults (args : Args) (cfg : Config) :
    (dget args "startindex" = none → parsedStartindex args = .ok 0)
    ∧ (∀ s n, dget args "startindex" = some s → pyParseInt s = some n →
        parsedStartindex args = .ok n)
    ∧ (∀ s, dget args "startindex" = some s → pyParseInt s = none →
        parsedStartindex args = .error .valueError)
    ∧ (dget args "limit" = none → parsedLimit args cfg = .ok cfg.server.limit)
    ∧ (∀ s n, dget args "limit" = some s → pyParseInt s = some n →
        parsedLimit args cfg = .ok n)
    ∧ (∀ s, dget args "limit" = some s → pyParseInt s = none →
        parsedLimit args cfg = .error .valueError) := by
  refine ⟨?_, ?_, ?_, ?_, ?_, ?_⟩ <;> intros <;>
    simp [parsedStartindex, parsedLimit, pyInt, *]

/-- C5 witness: concrete absent, integer, and non-integer inputs. -/
theorem C5_witness :
    parsedStartindex [] = .ok 0
    ∧ parsedStartindex [("startindex", "7")] = .ok 7
    ∧ parsedStartindex [("startindex", "x")] = .error .valueError
    ∧ parsedLimit [] (mkCfg dcfgPlain) = .ok 10 :=
  ⟨(C5_parse_defaults [] (mkCfg dcfgPlain)).1 (by decide),
   (C5_parse_defaults [("startindex", "7")] (mkCfg dcfgPlain)).2.1 "7" 7
     (by decide) (by decide),
   (C5_parse_defaults [("startindex", "x")] (mkCfg dcfgPlain)).2.2.1 "x"
     (by decide) (by decide),
   (C5_parse_defaults [] (mkCfg dcfgPlain)).2.2.2.1 (by decide)⟩

/-! ## Claim C6 -/

/-- C6 counterexample: against a collection whose declared temporal extent
ends at 250, the range request datetime=300/.. has its begin endpoint later
than the declared end, yet the request succeeds with 200: the source checks
a range begin endpoint only against the declared begin (unset here). -/
theorem C6_counterexample :
    ((get_features stdFormats [] (mkCfg dcfgEnd250) (.ok provEmpty) [] ""
      [("datetime", "300/..")] "ds" none "T").2.map Prod.fst) = .ok 200
    ∧ datetimeInvalid (some "300/..") dcfgEnd250.temporal = .ok false
    ∧ (250 : Int) < 300 := by
  decide

/-- C6 amended: datetime=../.. never sets the invalid flag; an instant is
rejected iff it is earlier than the declared begin or later than the
declared end; a range is rejected iff its begin endpoint is earlier than
the declared begin or its end endpoint is later than the declared end
(each endpoint is compared against one bound only, dots endpoints and
unset bounds never trigger); and whenever the flag is set the request is
rejected with 400 InvalidParameterValue and description datetime parameter
out of range. -/
theorem C6_datetime_validation :
    (∀ te : TemporalExtent, datetimeInvalid (some "../..") te = .ok false)
    ∧ (∀ (t : Int) (te : TemporalExtent), instantInvalid t te = true ↔
        (∃ tb, te.tbegin = some tb ∧ t < tb) ∨ (∃ tn, te.tend = some tn ∧ tn < t))
    ∧ (∀ (db de : DtEndpoint) (te : TemporalExtent), rangeInvalid db de te = true ↔
        (∃ t tb, db = .ts t ∧ te.tbegin = some tb ∧ t < tb)
        ∨ (∃ t tn, de = .ts t ∧ te.tend = some tn ∧ tn < t))
    ∧ (∀ te : TemporalExtent, rangeInvalid .dots .dots te = false)
    ∧ (∀ (formatsIn formatterPlugins : List String) (cfg : Config)
        (provLoad : Except PyExn Provider) (headers : Args) (envPathInfo : String)
        (args : Args) (dataset : String) (pathinfo : Option String) (now : String)
        (dcfg : DatasetConfig) (si lim : Int) (bb : List String),
        dsget cfg dataset = some dcfg →
        formatBad (check_format args headers)
          (formatsIn ++ formatterPlugins.map lowerStr) = false →
        parsedStartindex args = .ok si →
        parsedLimit args cfg = .ok lim →
        bboxStage args = .ok bb →
        datetimeInvalid (dget args "datetime") dcfg.temporal = .ok true →
        (get_features formatsIn formatterPlugins cfg provLoad headers envPathInfo
          args dataset pathinfo now).2 =
          .ok (400, .exn ⟨.InvalidParameterValue, "datetime parameter out of range"⟩)) := by
  refine ⟨fun te => rfl, ?_, ?_, fun te => rfl, ?_⟩
  · intro t te
    rcases te with ⟨tb, tn⟩
    rcases tb with _ | a <;> rcases tn with _ | b <;> simp [instantInvalid]
  · intro db de te
    rcases te with ⟨tb, tn⟩
    rcases db with _ | x <;> rcases de with _ | y <;>
      rcases tb with _ | a <;> rcases tn with _ | b <;> simp [rangeInvalid]
  · intro formatsIn formatterPlugins cfg provLoad headers envPathInfo args dataset
      pathinfo now dcfg si lim bb hds hfmt hsi hlim hbb hdt
    simp [get_features, hds, hfmt, hsi, hlim, hbb, hdt]

/-- C6 witness: a concrete request whose datetime instant precedes the
declared begin is rejected with the out-of-range body. -/
theorem C6_witness :
    (get_features stdFormats [] (mkCfg ⟨"DS", ⟨some 100, some 250⟩, []⟩)
      (.ok provEmpty) [] "" [("datetime", "7")] "ds" none "T").2 =
      .ok (400, .exn ⟨.InvalidParameterValue, "datetime parameter out of range"⟩) :=
  C6_datetime_validation.2.2.2.2 stdFormats [] (mkCfg ⟨"DS", ⟨some 100, some 250⟩, []⟩)
    (.ok provEmpty) [] "" [("datetime", "7")] "ds" none "T"
    ⟨"DS", ⟨some 100, some 250⟩, []⟩ 0 10 []
    (by decide) (by decide) (by decide) (by decide) (by decide) (by decide)

/-! ## Claim C7 -/

/-- C7: execute-process error paths: a falsy (absent or empty) body gives
400 MissingParameterValue, otherwise an unknown process id gives 404
NotFound, and a processor that raises during execution gives 400
InvalidParameterValue carrying the raised message (never a 500). -/
theorem C7_execute_process_errors (cfg : Config) (p : Process)
    (decode : String → Except PyExn (List (String × String)))
    (headers args : Args) (data : Option String) (process : String) :
    (pyFalsyBody data = true →
      execute_process cfg p decode headers args data process =
        .ok (400, .exn ⟨.MissingParameterValue, "missing request data"⟩))
    ∧ (pyFalsyBody data = false → process ∉ cfg.processes →
      execute_process cfg p decode headers args data process =
        .ok (404, .exn ⟨.NotFound, "identifier not found"⟩))
    ∧ (∀ s inputs msg, data = some s → pyFalsyBody data = false →
      process ∈ cfg.processes →
      decode s = .ok inputs →
      p.execute (buildDataDict inputs) = .error msg →
      execute_process cfg p decode headers args data process =
        .ok (400, .exn ⟨.InvalidParameterValue, msg⟩)) := by
  refine ⟨?_, ?_, ?_⟩
  · intro h
    simp [execute_process, h]
  · intro h1 h2
    simp [execute_process, h1, h2]
  · intro s inputs msg hdata h1 h2 hdec hexec
    subst hdata
    simp [execute_process, h1, h2, hdec, hexec]

/-- C7 witness: the three error paths at concrete inputs (the configured
process list is [hello], the processor raises with message boom). -/
theorem C7_witness :
    execute_process (mkCfg dcfgPlain) procBoom decodeOk [] [] none "hello" =
      .ok (400, .exn ⟨.MissingParameterValue, "missing request data"⟩)
    ∧ execute_process (mkCfg dcfgPlain) procBoom decodeOk [] [] (some "x") "nope" =
      .ok (404, .exn ⟨.NotFound, "identifier not found"⟩)
    ∧ execute_process (mkCfg dcfgPlain) procBoom decodeOk [] [] (some "x") "hello" =
      .ok (400, .exn ⟨.InvalidParameterValue, "boom"⟩) :=
  ⟨(C7_execute_process_errors (mkCfg dcfgPlain) procBoom decodeOk [] [] none
      "hello").1 (by decide),
   (C7_execute_process_errors (mkCfg dcfgPlain) procBoom decodeOk [] [] (some "x")
      "nope").2.1 (by decide) (by decide),
   (C7_execute_process_errors (mkCfg dcfgPlain) procBoom decodeOk [] [] (some "x")
      "hello").2.2 "x" [("a", "b")] "boom" rfl (by decide) (by decide) rfl rfl⟩

/-! ## Claim C8 -/

/-- C8 counterexample: a provider connection failure during the single-item
fetch propagates as an uncaught exception rather than being translated to
the 500 NoApplicableCode response the claim requires. -/
theorem C8_counterexample :
    get_feature stdFormats (mkCfg dcfgPlain) (.error .providerConnectionError)
      [] [] "ds" "i1" = .error .providerConnectionError
    ∧ (Except.error .providerConnectionError ≠
        (.ok (500, .exn ⟨.NoApplicableCode, "connection error (check logs)"⟩) :
          Except PyExn (Nat × FeatBody))) := by
  decide

/-- C8 amended: in the items query endpoint, provider connection and query
failures at plugin load and at query time are caught and returned as 500
NoApplicableCode with the generic check-logs description; in the
single-item endpoint they are not caught and propagate out of the handler. -/
theorem C8_provider_error_handling :
    (∀ (formatsIn formatterPlugins : List String) (cfg : Config) (headers : Args)
      (envPathInfo : String) (args : Args) (dataset : String)
      (pathinfo : Option String) (now : String) (dcfg : DatasetConfig)
      (si lim : Int) (bb : List String),
      dsget cfg dataset = some dcfg →
      formatBad (check_format args headers)
        (formatsIn ++ formatterPlugins.map lowerStr) = false →
      parsedStartindex args = .ok si → parsedLimit args cfg = .ok lim →
      bboxStage args = .ok bb →
      datetimeInvalid (dget args "datetime") dcfg.temporal = .ok false →
      (get_features formatsIn formatterPlugins cfg (.error .providerConnectionError)
        headers envPathInfo args dataset pathinfo now).2 =
        .ok (500, .exn ⟨.NoApplicableCode, "connection error (check logs)"⟩)
      ∧ (get_features formatsIn formatterPlugins cfg (.error .providerQueryError)
        headers envPathInfo args dataset pathinfo now).2 =
        .ok (500, .exn ⟨.NoApplicableCode, "query error (check logs)"⟩))
    ∧ (∀ (formatsIn formatterPlugins : List String) (cfg : Config) (p : Provider)
      (headers : Args) (envPathInfo : String) (args : Args) (dataset : String)
      (pathinfo : Option String) (now : String) (dcfg : DatasetConfig)
      (si lim : Int) (bb : List String) (sb : List (String × String))
      (e : PyExn),
      dsget cfg dataset = some dcfg →
      formatBad (check_format args headers)
        (formatsIn ++ formatterPlugins.map lowerStr) = false →
      parsedStartindex args = .ok si → parsedLimit args cfg = .ok lim →
      bboxStage args = .ok bb →
      datetimeInvalid (dget args "datetime") dcfg.temporal = .ok false →
      sortbyStage (dget args "sortby") p.fields = .ok (.ok sb) →
      p.query ⟨si, lim, resulttypeOf args, bb, dget args "datetime",
        computeProperties args p.fields, sb⟩ = .error e →
      (e = PyExn.providerConnectionError →
        (get_features formatsIn formatterPlugins cfg (.ok p)
          headers envPathInfo args dataset pathinfo now).2 =
          .ok (500, .exn ⟨.NoApplicableCode, "connection error (check logs)"⟩))
      ∧ (e = PyExn.providerQueryError →
        (get_features formatsIn formatterPlugins cfg (.ok p)
          headers envPathInfo args dataset pathinfo now).2 =
          .ok (500, .exn ⟨.NoApplicableCode, "query error (check logs)"⟩)))
    ∧ (∀ (formatsIn : List String) (cfg : Config) (headers args : Args)
      (dataset identifier : String) (dcfg : DatasetConfig) (e : PyExn),
      formatBad (check_format args headers) formatsIn = false →
      dsget cfg dataset = some dcfg →
      get_feature formatsIn cfg (.error e) headers args dataset identifier =
        .error e)
    ∧ (∀ (formatsIn : List String) (cfg : Config) (p : Provider)
      (headers args : Args) (dataset identifier : String)
      (dcfg : DatasetConfig) (e : PyExn),
      formatBad (check_format args headers) formatsIn = false →
      dsget cfg dataset = some dcfg →
      p.get identifier = .error e →
      get_feature formatsIn cfg (.ok p) headers args dataset identifier =
        .error e) := by
  refine ⟨?_, ?_, ?_, ?_⟩
  · intro formatsIn formatterPlugins cfg headers envPathInfo args dataset
      pathinfo now dcfg si lim bb hds hfmt hsi hlim hbb hdt
    constructor <;> simp [get_features, hds, hfmt, hsi, hlim, hbb, hdt]
  · intro formatsIn formatterPlugins cfg p headers envPathInfo args dataset
      pathinfo now dcfg si lim bb sb e hds hfmt hsi hlim hbb hdt hsort hq
    constructor <;> intro he <;> subst he <;>
      simp [get_features, hds, hfmt, hsi, hlim, hbb, hdt, hsort, hq]
  · intro formatsIn cfg headers args dataset identifier dcfg e hfmt hds
    simp [get_feature, hfmt, hds]
  · intro formatsIn cfg p headers args dataset identifier dcfg e hfmt hds hget
    simp [get_feature, hfmt, hds, hget]

/-- C8 witness: a connection failure at plugin load in the items endpoint
yields the opaque 500, while the same failure in the single-item endpoint
propagates. -/
theorem C8_witness :
    (get_features stdFormats [] (mkCfg dcfgPlain) (.error .providerConnectionError)
      [] "" [] "ds" none "T").2 =
      .ok (500, .exn ⟨.NoApplicableCode, "connection error (check logs)"⟩)
    ∧ get_feature stdFormats (mkCfg dcfgPlain) (.error .providerQueryError)
      [] [] "ds" "i1" = .error .providerQueryError :=
  ⟨(C8_provider_error_handling.1 stdFormats [] (mkCfg dcfgPlain) [] "" [] "ds"
      none "T" dcfgPlain 0 10 [] (by decide) (by decide) (by decide) (by decide)
      (by decide) (by decide)).1,
   C8_provider_error_handling.2.2.1 stdFormats (mkCfg dcfgPlain) [] [] "ds" "i1"
     dcfgPlain .providerQueryError (by decide) (by decide)⟩

/-! ## Claim C9 -/

/-- C9: the claim that no process-wide structure changes across requests
fails on the code: get_features aliases the module FORMATS list and
extends it in place with the lowercased formatter plugin names, so with a
CSV formatter registered the list grows from [json, html, jsonld] to
[json, html, jsonld, csv], and a later landing-page request with f=csv is
suddenly accepted (200) where before the items request it was rejected
(400) — two identical requests separated by another request behave
differently. -/
theorem C9_formats_global_mutated :
    (get_features stdFormats ["CSV"] (mkCfg dcfgPlain) (.ok provEmpty)
      [] "" [] "ds" none "T").1 = ["json", "html", "jsonld", "csv"]
    ∧ (["json", "html", "jsonld", "csv"] : List String) ≠ stdFormats
    ∧ (root stdFormats (mkCfg dcfgPlain) [] [("f", "csv")]).1 = 400
    ∧ (root ["json", "html", "jsonld", "csv"] (mkCfg dcfgPlain) []
        [("f", "csv")]).1 = 200 := by
  decide

/-! ## Claim C10 -/

/-- The Accept-header fallback never resolves to the empty string: its
only possible results are html, jsonld, json or nothing. -/
theorem acceptFormat_ne_empty (headers : Args) :
    check_format.acceptFormat headers ≠ some "" := by
  unfold check_format.acceptFormat
  rcases hacc : dget headers "accept" with _ | h1
  · rcases hAcc : dget headers "Accept" with _ | h2
    · simp [hacc, hAcc]
    · simp only [hacc, hAcc]
      split_ifs <;> simp
  · simp only [hacc]
    split_ifs <;> simp

/-- C10: a present-but-empty f query parameter is treated as absent:
format resolution gives the same result as for any request without an f
parameter (the Accept-header lookup), and never returns the empty value
verbatim. -/
theorem C10_empty_f_falls_through (args args2 headers : Args)
    (h : dget args "f" = some "") (h2 : dget args2 "f" = none) :
    check_format args headers = check_format args2 headers
    ∧ check_format args headers ≠ some "" := by
  constructor
  · simp [check_format, h, h2]
  · have hred : check_format args headers = check_format.acceptFormat headers := by
      simp [check_format, h]
    rw [hred]
    exact acceptFormat_ne_empty headers

/-- C10 witness: f empty with an Accept header naming text/html resolves
to html, exactly as without the f parameter. -/
theorem C10_witness :
    check_format [("f", "")] [("accept", "text/html")] =
      check_format [] [("accept", "text/html")]
    ∧ check_format [("f", "")] [("accept", "text/html")] ≠ some "" :=
  C10_empty_f_falls_through [("f", "")] [] [("accept", "text/html")]
    (by decide) (by decide)

end PyGeoApi
